import Mathlib

/-!
Verification of the Maidenhead grid-square tool (`gridsquare.hpp`).

The decoder works purely on characters and rational arithmetic, so it is
embedded over `ℚ` (every finite IEEE double is a rational number).  The
geodesy engine (Haversine distance, initial bearing) uses transcendental
functions and is embedded over `ℝ`, with C's `fmod`, `round` and `atan2`
modelled explicitly.
-/

namespace GridSquare

/-! ### Character helpers (C locale `toupper` / `isalpha` / `isdigit`) -/

/-- C `::toupper` restricted to ASCII: maps a lowercase letter to the
corresponding uppercase letter and leaves every other character alone. -/
def charUpper (c : Char) : Char :=
  if 'a' ≤ c ∧ c ≤ 'z' then Char.ofNat (c.toNat - 32) else c

/-- C `std::isalpha` (C locale): ASCII letter. -/
def isAlphaC (c : Char) : Bool :=
  ('A' ≤ c && c ≤ 'Z') || ('a' ≤ c && c ≤ 'z')

/-- C `std::isdigit`: ASCII digit. -/
def isDigitC (c : Char) : Bool :=
  '0' ≤ c && c ≤ '9'

/-- The integer value `c - 'A'` from the C code, as a rational. -/
def letterVal (c : Char) : ℚ := (c.toNat : ℚ) - 65

/-- The integer value `c - '0'` from the C code, as a rational. -/
def digitVal (c : Char) : ℚ := (c.toNat : ℚ) - 48

/-! ### Data model -/

/-- `struct Coordinate { double latitude; double longitude; }`.
Latitude and longitude in decimal degrees; the values the program ever
stores here are rational, so the fields are `ℚ`. -/
structure Coordinate where
  latitude : ℚ
  longitude : ℚ
deriving DecidableEq, Repr

/-- `enum class Unit`. -/
inductive Unit where
  | KILOMETERS
  | MILES
  | NAUTICAL_MILES
deriving DecidableEq, Repr

/-- Earth radius constants (km, statute miles, nautical miles). -/
def EARTH_RADIUS_KM : ℝ := 6371
def EARTH_RADIUS_MI : ℝ := 3959
def EARTH_RADIUS_NM : ℝ := 3440

/-! ### Locator decoder: `toLatLon` -/

/-- Body of `toLatLon` after the initial `std::transform` uppercasing: the
length check, the four character-class checks (in source order), the
tier-by-tier accumulation and the centre correction.  List patterns of
length 2, 4, 6 and 8 play the role of the C length test plus indexing. -/
def toLatLonUpper (g : List Char) : Except String Coordinate :=
  match g with
  | [a, b] =>
    if !isAlphaC a || !isAlphaC b then
      .error "First two characters must be letters"
    else
      let lon := letterVal a * 20 - 180
      let lat := letterVal b * 10 - 90
      .ok ⟨lat + 5, lon + 10⟩
  | [a, b, c, d] =>
    if !isAlphaC a || !isAlphaC b then
      .error "First two characters must be letters"
    else if !isDigitC c || !isDigitC d then
      .error "Characters 3-4 must be digits"
    else
      let lon := letterVal a * 20 - 180 + digitVal c * 2
      let lat := letterVal b * 10 - 90 + digitVal d * 1
      .ok ⟨lat + 1/2, lon + 1⟩
  | [a, b, c, d, e, f] =>
    if !isAlphaC a || !isAlphaC b then
      .error "First two characters must be letters"
    else if !isDigitC c || !isDigitC d then
      .error "Characters 3-4 must be digits"
    else if !isAlphaC e || !isAlphaC f then
      .error "Characters 5-6 must be letters"
    else
      let lon := letterVal a * 20 - 180 + digitVal c * 2 + letterVal e * (2/24)
      let lat := letterVal b * 10 - 90 + digitVal d * 1 + letterVal f * (1/24)
      .ok ⟨lat + 1/48, lon + 1/24⟩
  | [a, b, c, d, e, f, s, t] =>
    if !isAlphaC a || !isAlphaC b then
      .error "First two characters must be letters"
    else if !isDigitC c || !isDigitC d then
      .error "Characters 3-4 must be digits"
    else if !isAlphaC e || !isAlphaC f then
      .error "Characters 5-6 must be letters"
    else if !isDigitC s || !isDigitC t then
      .error "Characters 7-8 must be digits"
    else
      let lon := letterVal a * 20 - 180 + digitVal c * 2 + letterVal e * (2/24)
                   + digitVal s * (2/240)
      let lat := letterVal b * 10 - 90 + digitVal d * 1 + letterVal f * (1/24)
                   + digitVal t * (1/240)
      .ok ⟨lat + 1/480, lon + 1/240⟩
  | _ => .error "Grid square must be 2, 4, 6, or 8 characters"

/-- `Coordinate toLatLon(std::string grid)`: uppercase, validate, decode.
The C++ `throw std::invalid_argument` is embedded as `Except.error`. -/
def toLatLon (grid : String) : Except String Coordinate :=
  toLatLonUpper (grid.data.map charUpper)

/-! ### Geodesy engine -/

noncomputable section

/-- `toRadians`. -/
def toRadians (degrees : ℝ) : ℝ := degrees * Real.pi / 180

/-- `toDegrees`. -/
def toDegrees (radians : ℝ) : ℝ := radians * 180 / Real.pi

/-- Truncation toward zero on the reals (value of C's `trunc`). -/
def rtrunc (x : ℝ) : ℝ := if 0 ≤ x then (⌊x⌋ : ℝ) else (⌈x⌉ : ℝ)

/-- C `fmod` on the reals: `x - y * trunc(x / y)`; the result has the sign
of `x` and magnitude below `|y|`. -/
def fmod (x y : ℝ) : ℝ := x - y * rtrunc (x / y)

/-- `normalizeAngle`: reduce modulo 360 and shift negatives into range. -/
def normalizeAngle (angle : ℝ) : ℝ :=
  let a := fmod angle 360
  if a < 0 then a + 360 else a

/-- C `atan2(y, x)` on the reals (no signed zeros, so `atan2 0 0 = 0`). -/
def atan2 (y x : ℝ) : ℝ :=
  if 0 < x then Real.arctan (y / x)
  else if x < 0 then
    (if 0 ≤ y then Real.arctan (y / x) + Real.pi
     else Real.arctan (y / x) - Real.pi)
  else
    (if 0 < y then Real.pi / 2
     else if y < 0 then -(Real.pi / 2)
     else 0)

/-- The Haversine intermediate `a` from `calculateDistance`:
`sin²(dLat/2) + cos(lat1)·cos(lat2)·sin²(dLon/2)`. -/
def haversineA (coord1 coord2 : Coordinate) : ℝ :=
  let lat1 := toRadians coord1.latitude
  let lat2 := toRadians coord2.latitude
  let dLat := toRadians ((coord2.latitude : ℝ) - (coord1.latitude : ℝ))
  let dLon := toRadians ((coord2.longitude : ℝ) - (coord1.longitude : ℝ))
  Real.sin (dLat / 2) * Real.sin (dLat / 2) +
    Real.cos lat1 * Real.cos lat2 *
      Real.sin (dLon / 2) * Real.sin (dLon / 2)

/-- `calculateDistance`: Haversine great-circle distance on a sphere whose
radius is selected by the unit. -/
def calculateDistance (coord1 coord2 : Coordinate)
    (unit : Unit := Unit.KILOMETERS) : ℝ :=
  let R : ℝ :=
    match unit with
    | Unit.KILOMETERS => EARTH_RADIUS_KM
    | Unit.MILES => EARTH_RADIUS_MI
    | Unit.NAUTICAL_MILES => EARTH_RADIUS_NM
  let a := haversineA coord1 coord2
  let c := 2 * atan2 (Real.sqrt a) (Real.sqrt (1 - a))
  R * c

/-- `calculateBearing`: initial bearing of the great circle from `coord1`
to `coord2`, normalized into `[0, 360)`. -/
def calculateBearing (coord1 coord2 : Coordinate) : ℝ :=
  let lat1 := toRadians coord1.latitude
  let lat2 := toRadians coord2.latitude
  let dLon := toRadians ((coord2.longitude : ℝ) - (coord1.longitude : ℝ))
  let x := Real.sin dLon * Real.cos lat2
  let y := Real.cos lat1 * Real.sin lat2 -
             Real.sin lat1 * Real.cos lat2 * Real.cos dLon
  normalizeAngle (toDegrees (atan2 x y))

/-- `struct DistanceResult` (the C++ fields `from` / `to` are Lean
keywords, hence `fromCoord` / `toCoord`). -/
structure DistanceResult where
  distance : ℝ
  bearing : ℝ
  backBearing : ℝ
  fromCoord : Coordinate
  toCoord : Coordinate

/-- `distance(grid1, grid2, unit)`: decode both locators, then Haversine. -/
def distance (grid1 grid2 : String) (unit : Unit := Unit.KILOMETERS) :
    Except String ℝ := do
  let coord1 ← toLatLon grid1
  let coord2 ← toLatLon grid2
  return calculateDistance coord1 coord2 unit

/-- `bearing(grid1, grid2)`: decode both locators, then initial bearing. -/
def bearing (grid1 grid2 : String) : Except String ℝ := do
  let coord1 ← toLatLon grid1
  let coord2 ← toLatLon grid2
  return calculateBearing coord1 coord2

/-- `calculate(grid1, grid2, unit)`: the combined entry point, filling a
complete `DistanceResult`. -/
def calculate (grid1 grid2 : String) (unit : Unit := Unit.KILOMETERS) :
    Except String DistanceResult := do
  let coord1 ← toLatLon grid1
  let coord2 ← toLatLon grid2
  return { distance := calculateDistance coord1 coord2 unit
           bearing := calculateBearing coord1 coord2
           backBearing := calculateBearing coord2 coord1
           fromCoord := coord1
           toCoord := coord2 }

/-- The 16-entry compass table from `bearingToDirection`. -/
def directions : List String :=
  ["N", "NNE", "NE", "ENE", "E", "ESE", "SE", "SSE",
   "S", "SSW", "SW", "WSW", "W", "WNW", "NW", "NNW"]

/-- C `std::round`: round half away from zero. -/
def croundC (x : ℝ) : ℤ := if 0 ≤ x then ⌊x + 1/2⌋ else -⌊-x + 1/2⌋

/-- `bearingToDirection`: `directions[(int)round(bearing / 22.5) % 16]`.
C's `%` truncates (`Int.tmod`); a negative bearing would make the C index
negative (undefined behaviour), modelled here by `toNat`/`getD` clamping. -/
def bearingToDirection (bearing : ℝ) : String :=
  directions.getD ((croundC (bearing / 22.5)).tmod 16).toNat "N"

/-- `unitToString`. -/
def unitToString (unit : Unit) : String :=
  match unit with
  | Unit.KILOMETERS => "km"
  | Unit.MILES => "miles"
  | Unit.NAUTICAL_MILES => "nm"

end

/-! ### Spec-side definitions (written from the specification's words, for
the refinement claims about the decoder) -/

/-- Half the width of the finest tier, by locator length (spec §4.1 step 5). -/
def halfWidth (n : ℕ) : ℚ :=
  if n = 2 then 10 else if n = 4 then 1
  else if n = 6 then 1/24 else if n = 8 then 1/240 else 0

/-- Half the height of the finest tier, by locator length (spec §4.1 step 5). -/
def halfHeight (n : ℕ) : ℚ :=
  if n = 2 then 5 else if n = 4 then 1/2
  else if n = 6 then 1/48 else if n = 8 then 1/480 else 0

/-- Spec formula for the decoded longitude of an (uppercased) locator:
field + square + subsquare + extended-square terms plus the half-width. -/
def specLon (g : List Char) : ℚ :=
  letterVal (g.getD 0 ' ') * 20 - 180
    + (if 4 ≤ g.length then digitVal (g.getD 2 ' ') * 2 else 0)
    + (if 6 ≤ g.length then letterVal (g.getD 4 ' ') * (2/24) else 0)
    + (if g.length = 8 then digitVal (g.getD 6 ' ') * (2/240) else 0)
    + halfWidth g.length

/-- Spec formula for the decoded latitude of an (uppercased) locator. -/
def specLat (g : List Char) : ℚ :=
  letterVal (g.getD 1 ' ') * 10 - 90
    + (if 4 ≤ g.length then digitVal (g.getD 3 ' ') * 1 else 0)
    + (if 6 ≤ g.length then letterVal (g.getD 5 ' ') * (1/24) else 0)
    + (if g.length = 8 then digitVal (g.getD 7 ' ') * (1/240) else 0)
    + halfHeight g.length

/-- Spec validity predicate for an (uppercased) locator: length in
{2,4,6,8} and the per-pair character classes. -/
def specValid (g : List Char) : Prop :=
  (g.length = 2 ∨ g.length = 4 ∨ g.length = 6 ∨ g.length = 8)
    ∧ isAlphaC (g.getD 0 ' ') = true ∧ isAlphaC (g.getD 1 ' ') = true
    ∧ (4 ≤ g.length → isDigitC (g.getD 2 ' ') = true ∧ isDigitC (g.getD 3 ' ') = true)
    ∧ (6 ≤ g.length → isAlphaC (g.getD 4 ' ') = true ∧ isAlphaC (g.getD 5 ' ') = true)
    ∧ (g.length = 8 → isDigitC (g.getD 6 ' ') = true ∧ isDigitC (g.getD 7 ' ') = true)

/-! ### Decoder lemmas -/

theorem exists_error_iff (x : Except String Coordinate) :
    (∃ msg, x = .error msg) ↔ ¬ ∃ c, x = .ok c := by
  cases x <;> simp

theorem toLatLonUpper_ok_eq (g : List Char) (c : Coordinate)
    (h : toLatLonUpper g = .ok c) :
    c.latitude = specLat g ∧ c.longitude = specLon g := by
  rcases g with _ | ⟨a, _ | ⟨b, _ | ⟨c3, _ | ⟨d, _ | ⟨e, _ | ⟨f, _ | ⟨s, _ | ⟨t, _ | ⟨u, rest⟩⟩⟩⟩⟩⟩⟩⟩⟩
  · simp [toLatLonUpper] at h
  · simp [toLatLonUpper] at h
  · simp only [toLatLonUpper] at h
    split at h
    · simp at h
    · cases h
      constructor <;> simp [specLat, specLon, halfWidth, halfHeight]
  · simp [toLatLonUpper] at h
  · simp only [toLatLonUpper] at h
    split at h
    · simp at h
    · split at h
      · simp at h
      · cases h
        constructor <;> simp [specLat, specLon, halfWidth, halfHeight]
  · simp [toLatLonUpper] at h
  · simp only [toLatLonUpper] at h
    split at h
    · simp at h
    · split at h
      · simp at h
      · split at h
        · simp at h
        · cases h
          constructor <;> simp [specLat, specLon, halfWidth, halfHeight]
  · simp [toLatLonUpper] at h
  · simp only [toLatLonUpper] at h
    split at h
    · simp at h
    · split at h
      · simp at h
      · split at h
        · simp at h
        · split at h
          · simp at h
          · cases h
            constructor <;> simp [specLat, specLon, halfWidth, halfHeight]
  · simp [toLatLonUpper] at h

theorem toLatLonUpper_ok_iff (g : List Char) :
    (∃ c, toLatLonUpper g = .ok c) ↔ specValid g := by
  rcases g with _ | ⟨a, _ | ⟨b, _ | ⟨c3, _ | ⟨d, _ | ⟨e, _ | ⟨f, _ | ⟨s, _ | ⟨t, _ | ⟨u, rest⟩⟩⟩⟩⟩⟩⟩⟩⟩
  · simp [toLatLonUpper, specValid]
  · simp [toLatLonUpper, specValid]
  · constructor
    · rintro ⟨c0, h⟩
      simp only [toLatLonUpper] at h
      split_ifs at h with h1 <;> simp_all [specValid]
    · intro hv
      simp only [specValid] at hv
      obtain ⟨-, ha, hb, -, -, -⟩ := hv
      simp only [List.getD_cons_zero, List.getD_cons_succ] at ha hb
      refine ⟨⟨letterVal b * 10 - 90 + 5, letterVal a * 20 - 180 + 10⟩, ?_⟩
      simp only [toLatLonUpper]
      rw [if_neg (by simp [ha, hb])]
  · simp [toLatLonUpper, specValid]
  · constructor
    · rintro ⟨c0, h⟩
      simp only [toLatLonUpper] at h
      split_ifs at h with h1 h2 <;> simp_all [specValid]
    · intro hv
      simp only [specValid] at hv
      obtain ⟨-, ha, hb, h4, -, -⟩ := hv
      obtain ⟨hc, hd⟩ := h4 (by simp)
      simp only [List.getD_cons_zero, List.getD_cons_succ] at ha hb hc hd
      refine ⟨⟨letterVal b * 10 - 90 + digitVal d * 1 + 1/2,
        letterVal a * 20 - 180 + digitVal c3 * 2 + 1⟩, ?_⟩
      simp only [toLatLonUpper]
      rw [if_neg (by simp [ha, hb]), if_neg (by simp [hc, hd])]
  · simp [toLatLonUpper, specValid]
  · constructor
    · rintro ⟨c0, h⟩
      simp only [toLatLonUpper] at h
      split_ifs at h with h1 h2 h3 <;> simp_all [specValid]
    · intro hv
      simp only [specValid] at hv
      obtain ⟨-, ha, hb, h4, h6, -⟩ := hv
      obtain ⟨hc, hd⟩ := h4 (by simp)
      obtain ⟨he, hf⟩ := h6 (by simp)
      simp only [List.getD_cons_zero, List.getD_cons_succ] at ha hb hc hd he hf
      refine ⟨⟨letterVal b * 10 - 90 + digitVal d * 1 + letterVal f * (1/24) + 1/48,
        letterVal a * 20 - 180 + digitVal c3 * 2 + letterVal e * (2/24) + 1/24⟩, ?_⟩
      simp only [toLatLonUpper]
      rw [if_neg (by simp [ha, hb]), if_neg (by simp [hc, hd]),
        if_neg (by simp [he, hf])]
  · simp [toLatLonUpper, specValid]
  · constructor
    · rintro ⟨c0, h⟩
      simp only [toLatLonUpper] at h
      split_ifs at h with h1 h2 h3 h4 <;> simp_all [specValid]
    · intro hv
      simp only [specValid] at hv
      obtain ⟨-, ha, hb, h4, h6, h8⟩ := hv
      obtain ⟨hc, hd⟩ := h4 (by simp)
      obtain ⟨he, hf⟩ := h6 (by simp)
      obtain ⟨hs, ht⟩ := h8 (by simp)
      simp only [List.getD_cons_zero, List.getD_cons_succ] at ha hb hc hd he hf hs ht
      refine ⟨⟨letterVal b * 10 - 90 + digitVal d * 1 + letterVal f * (1/24)
          + digitVal t * (1/240) + 1/480,
        letterVal a * 20 - 180 + digitVal c3 * 2 + letterVal e * (2/24)
          + digitVal s * (2/240) + 1/240⟩, ?_⟩
      simp only [toLatLonUpper]
      rw [if_neg (by simp [ha, hb]), if_neg (by simp [hc, hd]),
        if_neg (by simp [he, hf]), if_neg (by simp [hs, ht])]
  · constructor
    · rintro ⟨c0, h⟩
      simp [toLatLonUpper] at h
    · intro hv
      have hlen := hv.1
      simp only [List.length_cons] at hlen
      omega

/-! ### Claim theorems: decoder -/

/-- C1: every locator accepted by `toLatLon` decodes to the centre point of
its cell: the longitude is the field term `(char1-'A')*20 - 180` plus the
square, subsquare and extended-square terms present for its length plus the
length-determined half-width, and the latitude is the corresponding sum
with the half-height, characters taken after uppercasing. -/
theorem toLatLon_center_correct (grid : String) (c : Coordinate)
    (h : toLatLon grid = Except.ok c) :
    c.latitude = specLat (grid.data.map charUpper) ∧
    c.longitude = specLon (grid.data.map charUpper) :=
  toLatLonUpper_ok_eq (grid.data.map charUpper) c h

/-- Witness for C1 at the locator "CN87". -/
theorem toLatLon_center_correct_witness :
    toLatLon "CN87" = Except.ok ⟨95/2, -123⟩ ∧
    ((⟨95/2, -123⟩ : Coordinate).latitude = specLat ("CN87".data.map charUpper) ∧
     (⟨95/2, -123⟩ : Coordinate).longitude = specLon ("CN87".data.map charUpper)) := by
  have hok : toLatLon "CN87" = Except.ok ⟨95/2, -123⟩ := by
    have h : toLatLon "CN87" =
        Except.ok ⟨letterVal 'N' * 10 - 90 + digitVal '7' * 1 + 1/2,
          letterVal 'C' * 20 - 180 + digitVal '8' * 2 + 1⟩ := rfl
    rw [h]
    norm_num [letterVal, digitVal, show Char.toNat 'N' = 78 from by decide,
      show Char.toNat 'C' = 67 from by decide, show Char.toNat '8' = 56 from by decide,
      show Char.toNat '7' = 55 from by decide]
  exact ⟨hok, toLatLon_center_correct "CN87" ⟨95/2, -123⟩ hok⟩

/-- C2: `toLatLon` fails exactly on the inputs whose uppercased form
violates the length or character-class rules, and in particular rejects
"F", "12AB" and "FNAB"; on every other input it returns a coordinate. -/
theorem toLatLon_error_iff :
    (∀ grid : String,
      (∃ msg, toLatLon grid = Except.error msg) ↔ ¬ specValid (grid.data.map charUpper))
    ∧ toLatLon "F" = Except.error "Grid square must be 2, 4, 6, or 8 characters"
    ∧ toLatLon "12AB" = Except.error "First two characters must be letters"
    ∧ toLatLon "FNAB" = Except.error "Characters 3-4 must be digits" := by
  refine ⟨fun grid => ?_, rfl, rfl, rfl⟩
  rw [exists_error_iff]
  exact not_congr (toLatLonUpper_ok_iff (grid.data.map charUpper))

/-- C10: the decoder accepts any ASCII letter in the letter positions, not
only the Maidenhead ranges, so "ZZ" decodes successfully to latitude 165
and longitude 330 — outside the geographic range [-90,90] × [-180,180]. -/
theorem toLatLon_accepts_out_of_range :
    toLatLon "ZZ" = Except.ok ⟨165, 330⟩ ∧ (90 : ℚ) < 165 ∧ (180 : ℚ) < 330 := by
  refine ⟨?_, by norm_num, by norm_num⟩
  have h : toLatLon "ZZ" =
      Except.ok ⟨letterVal 'Z' * 10 - 90 + 5, letterVal 'Z' * 20 - 180 + 10⟩ := rfl
  rw [h]
  norm_num [letterVal, show Char.toNat 'Z' = 90 from by decide]

/-! ### Geodesy lemmas -/

theorem toRadians_zero : toRadians 0 = 0 := by simp [toRadians]

theorem normalizeAngle_bounds (angle : ℝ) :
    0 ≤ normalizeAngle angle ∧ normalizeAngle angle < 360 := by
  simp only [normalizeAngle, fmod, rtrunc]
  have hf1 : (⌊angle / 360⌋ : ℝ) ≤ angle / 360 := Int.floor_le _
  have hf2 : angle / 360 < ⌊angle / 360⌋ + 1 := Int.lt_floor_add_one _
  have hc1 : angle / 360 ≤ (⌈angle / 360⌉ : ℝ) := Int.le_ceil _
  have hc2 : (⌈angle / 360⌉ : ℝ) < angle / 360 + 1 := Int.ceil_lt_add_one _
  split_ifs with h1 h2 h3 <;> constructor <;> linarith

theorem normalizeAngle_of_mem (x : ℝ) (h1 : 0 ≤ x) (h2 : x < 360) :
    normalizeAngle x = x := by
  simp only [normalizeAngle, fmod, rtrunc]
  have hx : 0 ≤ x / 360 := by positivity
  have hfl : ⌊x / 360⌋ = 0 := by
    rw [Int.floor_eq_zero_iff]
    constructor
    · exact hx
    · rw [div_lt_one (by norm_num : (0:ℝ) < 360)]; linarith
  rw [if_pos hx, hfl]
  norm_num
  linarith

theorem normalizeAngle_of_neg (x : ℝ) (h1 : -360 < x) (h2 : x < 0) :
    normalizeAngle x = x + 360 := by
  simp only [normalizeAngle, fmod, rtrunc]
  have hx : ¬ 0 ≤ x / 360 := by
    rw [not_le]
    exact div_neg_of_neg_of_pos h2 (by norm_num)
  have hcl : ⌈x / 360⌉ = 0 := by
    rw [Int.ceil_eq_zero_iff, Set.mem_Ioc]
    constructor <;> linarith
  rw [if_neg hx, hcl]
  simp only [Int.cast_zero, mul_zero, sub_zero, if_pos h2]

theorem cos_comb_bounds (u v w : ℝ) :
    -1 ≤ Real.sin u * Real.sin v + Real.cos u * Real.cos v * Real.cos w
    ∧ Real.sin u * Real.sin v + Real.cos u * Real.cos v * Real.cos w ≤ 1 := by
  have hs1 := Real.sin_sq_add_cos_sq u
  have hs2 := Real.sin_sq_add_cos_sq v
  have hA : 0 ≤ 1 - Real.sin u * Real.sin v - Real.cos u * Real.cos v := by
    nlinarith [sq_nonneg (Real.sin u - Real.sin v), sq_nonneg (Real.cos u - Real.cos v)]
  have hB : 0 ≤ 1 - Real.sin u * Real.sin v + Real.cos u * Real.cos v := by
    nlinarith [sq_nonneg (Real.sin u - Real.sin v), sq_nonneg (Real.cos u + Real.cos v)]
  have hC : 0 ≤ 1 + Real.sin u * Real.sin v - Real.cos u * Real.cos v := by
    nlinarith [sq_nonneg (Real.sin u + Real.sin v), sq_nonneg (Real.cos u - Real.cos v)]
  have hD : 0 ≤ 1 + Real.sin u * Real.sin v + Real.cos u * Real.cos v := by
    nlinarith [sq_nonneg (Real.sin u + Real.sin v), sq_nonneg (Real.cos u + Real.cos v)]
  have ht1 : Real.cos w ≤ 1 := Real.cos_le_one w
  have ht2 : -1 ≤ Real.cos w := Real.neg_one_le_cos w
  constructor
  · nlinarith [mul_nonneg (by linarith : (0:ℝ) ≤ 1 - Real.cos w) hC,
      mul_nonneg (by linarith : (0:ℝ) ≤ 1 + Real.cos w) hD]
  · nlinarith [mul_nonneg (by linarith : (0:ℝ) ≤ 1 + Real.cos w) hA,
      mul_nonneg (by linarith : (0:ℝ) ≤ 1 - Real.cos w) hB]

theorem hav_expr_mem (u v w : ℝ) :
    0 ≤ Real.sin ((v - u) / 2) * Real.sin ((v - u) / 2) +
          Real.cos u * Real.cos v * Real.sin (w / 2) * Real.sin (w / 2)
    ∧ Real.sin ((v - u) / 2) * Real.sin ((v - u) / 2) +
          Real.cos u * Real.cos v * Real.sin (w / 2) * Real.sin (w / 2) ≤ 1 := by
  have hid : Real.sin ((v - u) / 2) * Real.sin ((v - u) / 2) +
        Real.cos u * Real.cos v * Real.sin (w / 2) * Real.sin (w / 2)
      = (1 - (Real.sin u * Real.sin v + Real.cos u * Real.cos v * Real.cos w)) / 2 := by
    have h3 : Real.sin ((v - u) / 2) ^ 2 = 1 / 2 - Real.cos (v - u) / 2 := by
      rw [Real.sin_sq_eq_half_sub, show 2 * ((v - u) / 2) = v - u from by ring]
    have h4 : Real.sin (w / 2) ^ 2 = 1 / 2 - Real.cos w / 2 := by
      rw [Real.sin_sq_eq_half_sub, show 2 * (w / 2) = w from by ring]
    calc Real.sin ((v - u) / 2) * Real.sin ((v - u) / 2) +
          Real.cos u * Real.cos v * Real.sin (w / 2) * Real.sin (w / 2)
        = Real.sin ((v - u) / 2) ^ 2 + Real.cos u * Real.cos v * Real.sin (w / 2) ^ 2 := by
          ring
      _ = (1 / 2 - Real.cos (v - u) / 2) + Real.cos u * Real.cos v * (1 / 2 - Real.cos w / 2) := by
          rw [h3, h4]
      _ = (1 - (Real.sin u * Real.sin v + Real.cos u * Real.cos v * Real.cos w)) / 2 := by
          rw [Real.cos_sub]
          ring
  obtain ⟨hl, hr⟩ := cos_comb_bounds u v w
  rw [hid]
  constructor <;> linarith

theorem calculateDistance_self (c : Coordinate) (unit : Unit) :
    calculateDistance c c unit = 0 := by
  have hA : haversineA c c = 0 := by
    simp [haversineA, toRadians_zero]
  simp [calculateDistance, hA, atan2, Real.sqrt_zero, Real.sqrt_one]

theorem calculateBearing_self (c : Coordinate) :
    calculateBearing c c = 0 := by
  simp [calculateBearing, toRadians_zero, atan2, toDegrees, normalizeAngle, fmod, rtrunc,
    mul_comm]

theorem bearing_ex_fwd : calculateBearing ⟨0, 0⟩ ⟨45, 90⟩ = 45 := by
  simp only [calculateBearing]
  norm_num
  rw [show toRadians 90 = Real.pi / 2 from by simp only [toRadians]; ring,
    show toRadians 45 = Real.pi / 4 from by simp only [toRadians]; ring,
    toRadians_zero]
  rw [Real.sin_pi_div_two, Real.cos_pi_div_four, Real.cos_zero, Real.sin_pi_div_four,
    Real.sin_zero, Real.cos_pi_div_two]
  norm_num
  have hpos : (0:ℝ) < Real.sqrt 2 / 2 := by positivity
  rw [show atan2 (Real.sqrt 2 / 2) (Real.sqrt 2 / 2) = Real.arctan 1 from by
    rw [atan2, if_pos hpos, div_self (ne_of_gt hpos)]]
  rw [Real.arctan_one]
  rw [show toDegrees (Real.pi / 4) = 45 from by
    simp only [toDegrees]; field_simp; ring]
  exact normalizeAngle_of_mem 45 (by norm_num) (by norm_num)

theorem bearing_ex_back : calculateBearing ⟨45, 90⟩ ⟨0, 0⟩ = 270 := by
  simp only [calculateBearing]
  norm_num
  rw [show toRadians (-90) = -(Real.pi / 2) from by simp only [toRadians]; ring,
    show toRadians 45 = Real.pi / 4 from by simp only [toRadians]; ring,
    toRadians_zero]
  rw [Real.sin_neg, Real.cos_neg, Real.sin_pi_div_two, Real.cos_pi_div_two,
    Real.sin_zero, Real.cos_zero]
  norm_num
  rw [show atan2 (-1 : ℝ) 0 = -(Real.pi / 2) from by simp only [atan2]; norm_num]
  rw [show toDegrees (-(Real.pi / 2)) = -90 from by
    simp only [toDegrees]; field_simp; ring]
  rw [normalizeAngle_of_neg (-90) (by norm_num) (by norm_num)]
  norm_num

theorem calculate_spec (grid1 grid2 : String) (unit : Unit) (c1 c2 : Coordinate)
    (h1 : toLatLon grid1 = Except.ok c1) (h2 : toLatLon grid2 = Except.ok c2) :
    calculate grid1 grid2 unit = Except.ok
      { distance := calculateDistance c1 c2 unit, bearing := calculateBearing c1 c2,
        backBearing := calculateBearing c2 c1, fromCoord := c1, toCoord := c2 } := by
  unfold calculate
  rw [h1, h2]
  rfl

theorem toLatLon_CN87_eval : toLatLon "CN87" = Except.ok ⟨95/2, -123⟩ := by
  have h : toLatLon "CN87" =
      Except.ok ⟨letterVal 'N' * 10 - 90 + digitVal '7' * 1 + 1/2,
        letterVal 'C' * 20 - 180 + digitVal '8' * 2 + 1⟩ := rfl
  rw [h]
  norm_num [letterVal, digitVal, show Char.toNat 'N' = 78 from by decide,
    show Char.toNat 'C' = 67 from by decide, show Char.toNat '8' = 56 from by decide,
    show Char.toNat '7' = 55 from by decide]

theorem toLatLon_FN42_eval : toLatLon "FN42" = Except.ok ⟨85/2, -71⟩ := by
  have h : toLatLon "FN42" =
      Except.ok ⟨letterVal 'N' * 10 - 90 + digitVal '2' * 1 + 1/2,
        letterVal 'F' * 20 - 180 + digitVal '4' * 2 + 1⟩ := rfl
  rw [h]
  norm_num [letterVal, digitVal, show Char.toNat 'N' = 78 from by decide,
    show Char.toNat 'F' = 70 from by decide, show Char.toNat '4' = 52 from by decide,
    show Char.toNat '2' = 50 from by decide]

/-! ### Claim theorems: geodesy -/

/-- C3: the Haversine intermediate is always in [0,1], so both square-root
arguments (`a` and `1 - a`) in `calculateDistance` are non-negative and the
distance computation is well defined for every pair of coordinates. -/
theorem haversineA_in_unit_interval (coord1 coord2 : Coordinate) :
    0 ≤ haversineA coord1 coord2 ∧ haversineA coord1 coord2 ≤ 1
    ∧ 0 ≤ 1 - haversineA coord1 coord2 := by
  have key := hav_expr_mem (toRadians coord1.latitude) (toRadians coord2.latitude)
    (toRadians ((coord2.longitude : ℝ) - (coord1.longitude : ℝ)))
  have hshape : haversineA coord1 coord2
      = Real.sin ((toRadians coord2.latitude - toRadians coord1.latitude) / 2) *
          Real.sin ((toRadians coord2.latitude - toRadians coord1.latitude) / 2) +
        Real.cos (toRadians coord1.latitude) * Real.cos (toRadians coord2.latitude) *
          Real.sin (toRadians ((coord2.longitude : ℝ) - (coord1.longitude : ℝ)) / 2) *
          Real.sin (toRadians ((coord2.longitude : ℝ) - (coord1.longitude : ℝ)) / 2) := by
    have harg : toRadians ((coord2.latitude : ℝ) - (coord1.latitude : ℝ))
        = toRadians coord2.latitude - toRadians coord1.latitude := by
      simp only [toRadians]; ring
    simp only [haversineA, harg]
  rw [hshape]
  exact ⟨key.1, key.2, by linarith [key.2]⟩

/-- C4: `normalizeAngle` maps every real angle into [0, 360), so
`calculateBearing` always returns a value in [0, 360). -/
theorem calculateBearing_in_range :
    (∀ angle : ℝ, 0 ≤ normalizeAngle angle ∧ normalizeAngle angle < 360)
    ∧ ∀ coord1 coord2 : Coordinate,
        0 ≤ calculateBearing coord1 coord2 ∧ calculateBearing coord1 coord2 < 360 :=
  ⟨normalizeAngle_bounds, fun _ _ => normalizeAngle_bounds _⟩

/-- C5: `calculate` fills `backBearing` with the initial bearing from the
second decoded coordinate back to the first (arguments swapped), which is
not in general equal to the forward bearing plus 180 modulo 360. -/
theorem calculate_backBearing_swap :
    (∀ (grid1 grid2 : String) (unit : Unit) (c1 c2 : Coordinate),
      toLatLon grid1 = Except.ok c1 → toLatLon grid2 = Except.ok c2 →
      calculate grid1 grid2 unit = Except.ok
        { distance := calculateDistance c1 c2 unit, bearing := calculateBearing c1 c2,
          backBearing := calculateBearing c2 c1, fromCoord := c1, toCoord := c2 })
    ∧ ∃ a b : Coordinate,
        calculateBearing b a ≠ normalizeAngle (calculateBearing a b + 180) := by
  constructor
  · exact fun grid1 grid2 unit c1 c2 h1 h2 => calculate_spec grid1 grid2 unit c1 c2 h1 h2
  · refine ⟨⟨0, 0⟩, ⟨45, 90⟩, ?_⟩
    rw [bearing_ex_back, bearing_ex_fwd]
    rw [show (45:ℝ) + 180 = 225 from by norm_num,
      normalizeAngle_of_mem 225 (by norm_num) (by norm_num)]
    norm_num

/-- Witness for C5 at the locators "CN87" and "FN42". -/
theorem calculate_backBearing_swap_witness :
    toLatLon "CN87" = Except.ok ⟨95/2, -123⟩ ∧ toLatLon "FN42" = Except.ok ⟨85/2, -71⟩ ∧
    calculate "CN87" "FN42" Unit.KILOMETERS = Except.ok
      { distance := calculateDistance ⟨95/2, -123⟩ ⟨85/2, -71⟩ Unit.KILOMETERS,
        bearing := calculateBearing ⟨95/2, -123⟩ ⟨85/2, -71⟩,
        backBearing := calculateBearing ⟨85/2, -71⟩ ⟨95/2, -123⟩,
        fromCoord := ⟨95/2, -123⟩, toCoord := ⟨85/2, -71⟩ } :=
  ⟨toLatLon_CN87_eval, toLatLon_FN42_eval,
    calculate_backBearing_swap.1 "CN87" "FN42" Unit.KILOMETERS ⟨95/2, -123⟩ ⟨85/2, -71⟩
      toLatLon_CN87_eval toLatLon_FN42_eval⟩

/-- C6: the Haversine distance is symmetric in its two coordinates for
every unit. -/
theorem calculateDistance_symm (coord1 coord2 : Coordinate) (unit : Unit) :
    calculateDistance coord1 coord2 unit = calculateDistance coord2 coord1 unit := by
  have hA : haversineA coord2 coord1 = haversineA coord1 coord2 := by
    simp only [haversineA, toRadians]
    have s1 : Real.sin (((coord1.latitude : ℝ) - (coord2.latitude : ℝ)) * Real.pi / 180 / 2)
        = -Real.sin (((coord2.latitude : ℝ) - (coord1.latitude : ℝ)) * Real.pi / 180 / 2) := by
      rw [show ((coord1.latitude : ℝ) - (coord2.latitude : ℝ)) * Real.pi / 180 / 2
          = -(((coord2.latitude : ℝ) - (coord1.latitude : ℝ)) * Real.pi / 180 / 2) from by ring,
        Real.sin_neg]
    have s2 : Real.sin (((coord1.longitude : ℝ) - (coord2.longitude : ℝ)) * Real.pi / 180 / 2)
        = -Real.sin (((coord2.longitude : ℝ) - (coord1.longitude : ℝ)) * Real.pi / 180 / 2) := by
      rw [show ((coord1.longitude : ℝ) - (coord2.longitude : ℝ)) * Real.pi / 180 / 2
          = -(((coord2.longitude : ℝ) - (coord1.longitude : ℝ)) * Real.pi / 180 / 2) from by ring,
        Real.sin_neg]
    rw [s1, s2]
    ring
  simp only [calculateDistance, hA]

/-- C7: the central-angle factor is unit-independent, so the mile and
nautical-mile distances are the kilometre distance rescaled by the ratio of
the Earth-radius constants. -/
theorem calculateDistance_unit_scaling (coord1 coord2 : Coordinate) :
    calculateDistance coord1 coord2 Unit.MILES
        = calculateDistance coord1 coord2 Unit.KILOMETERS * (3959 / 6371)
    ∧ calculateDistance coord1 coord2 Unit.NAUTICAL_MILES
        = calculateDistance coord1 coord2 Unit.KILOMETERS * (3440 / 6371) := by
  constructor <;>
    · simp only [calculateDistance, EARTH_RADIUS_KM, EARTH_RADIUS_MI, EARTH_RADIUS_NM]
      ring

/-- C8: evaluating a valid locator against itself yields distance exactly 0
and bearing 0 (and back-bearing 0), by the `atan2 0 0 = 0` convention. -/
theorem calculate_self_zero (grid : String) (c : Coordinate) (unit : Unit)
    (h : toLatLon grid = Except.ok c) :
    calculate grid grid unit = Except.ok
      { distance := 0, bearing := 0, backBearing := 0, fromCoord := c, toCoord := c } := by
  rw [calculate_spec grid grid unit c c h h, calculateDistance_self, calculateBearing_self]

/-- Witness for C8 at the locator "CN87". -/
theorem calculate_self_zero_witness :
    toLatLon "CN87" = Except.ok ⟨95/2, -123⟩ ∧
    calculate "CN87" "CN87" Unit.KILOMETERS = Except.ok
      { distance := 0, bearing := 0, backBearing := 0,
        fromCoord := ⟨95/2, -123⟩, toCoord := ⟨95/2, -123⟩ } :=
  ⟨toLatLon_CN87_eval,
    calculate_self_zero "CN87" ⟨95/2, -123⟩ Unit.KILOMETERS toLatLon_CN87_eval⟩

/-- C9: the compass table has exactly 16 labels, every bearing in [0,360)
maps into it via `round(bearing / 22.5) % 16`, and 0° maps to "N" while
180° maps to "S". -/
theorem bearingToDirection_spec :
    directions.length = 16
    ∧ (∀ b : ℝ, 0 ≤ b → b < 360 → bearingToDirection b ∈ directions)
    ∧ bearingToDirection 0 = "N"
    ∧ bearingToDirection 180 = "S" := by
  refine ⟨by simp [directions], fun b hb0 hb1 => ?_, ?_, ?_⟩
  · have hq0 : (0:ℝ) ≤ b / 22.5 := by positivity
    have hr0 : 0 ≤ croundC (b / 22.5) := by
      simp only [croundC, if_pos hq0]
      exact Int.le_floor.mpr (by push_cast; linarith)
    have hr16 : croundC (b / 22.5) ≤ 16 := by
      simp only [croundC, if_pos hq0]
      have hlt : b / 22.5 < 16 := by
        rw [div_lt_iff₀ (by norm_num : (0:ℝ) < 22.5)]
        linarith
      have hfl : ⌊b / 22.5 + 1/2⌋ < 17 := Int.floor_lt.mpr (by push_cast; linarith)
      omega
    have hm16 : (croundC (b / 22.5)).tmod 16 < 16 :=
      Int.tmod_lt_of_pos _ (by norm_num)
    have hidx : ((croundC (b / 22.5)).tmod 16).toNat < directions.length := by
      simp only [directions, List.length_cons, List.length_nil]
      omega
    simp only [bearingToDirection]
    rw [List.getD_eq_getElem directions "N" hidx]
    exact List.getElem_mem hidx
  · simp only [bearingToDirection]
    rw [show croundC ((0:ℝ) / 22.5) = 0 from by simp only [croundC]; norm_num]
    rfl
  · simp only [bearingToDirection]
    rw [show croundC ((180:ℝ) / 22.5) = 8 from by simp only [croundC]; norm_num]
    rfl

/-- Witness for C9 at the bearing 45°. -/
theorem bearingToDirection_spec_witness :
    (0:ℝ) ≤ 45 ∧ (45:ℝ) < 360 ∧ bearingToDirection 45 ∈ directions :=
  ⟨by norm_num, by norm_num,
    bearingToDirection_spec.2.1 45 (by norm_num) (by norm_num)⟩

end GridSquare
